import Mathlib

/-!
Verification of the book-store program (`src/main.py`): a `Book` record
class and a `Library` class that keeps a list of books in memory,
mirrors it to a JSON backing file, and serves search / delete /
update-status / add operations.

The JSON encode/decode primitives are external collaborators; the
backing file is therefore modelled at the level of the decoded JSON
value (`PyVal`), not the character stream.
-/

set_option autoImplicit false

namespace BookStore

/-- The dynamic values this program manipulates: Python integers,
strings, lists and string-keyed dictionaries (the JSON-representable
values that occur in the backing file and in search criteria).
JSON floats, booleans and null do not occur in data the program itself
writes and are omitted. -/
inductive PyVal where
  | int (n : Int)
  | str (s : String)
  | list (elems : List PyVal)
  | dict (entries : List (String × PyVal))

/-- Python `==` between a value and an `int`: value equality on
integers; an `int` never equals a `str`, `list` or `dict` (no error,
just `False`). Used for `book.id == int(value)` and `book.id == book_id`. -/
def pyEqInt (v : PyVal) (n : Int) : Bool :=
  match v with
  | .int m => m == n
  | _ => false

mutual

/-- Python `repr()` restricted to the values above: decimal for
integers, quotes around strings, bracketed element lists. -/
def pyRepr : PyVal → String
  | .int n => toString n
  | .str s => "\x27" ++ s ++ "\x27"
  | .list elems => "[" ++ pyReprElems elems ++ "]"
  | .dict entries => "\x7b" ++ pyReprEntries entries ++ "\x7d"

/-- Comma-separated `repr()`s of a list's elements. -/
def pyReprElems : List PyVal → String
  | [] => ""
  | [v] => pyRepr v
  | v :: vs => pyRepr v ++ ", " ++ pyReprElems vs

/-- Comma-separated `key: repr(value)` pairs of a dict's entries. -/
def pyReprEntries : List (String × PyVal) → String
  | [] => ""
  | [(k, v)] => "\x27" ++ k ++ "\x27: " ++ pyRepr v
  | (k, v) :: kvs => "\x27" ++ k ++ "\x27: " ++ pyRepr v ++ ", " ++ pyReprEntries kvs

end

/-- Python `str()`: a string is itself; other values render as their
`repr()`. Used by `search_books` line 79: `str(getattr(...))`, `str(value)`. -/
def pyStr : PyVal → String
  | .str s => s
  | v => pyRepr v

/-- Decimal value of a character run, failing on any non-digit. -/
def decDigits (acc : Nat) : List Char → Option Nat
  | [] => some acc
  | c :: cs => if c.isDigit then decDigits (acc * 10 + (c.toNat - 48)) cs else none

/-- Python `int(s)` on a string: an optionally signed run of decimal
digits (the whitespace-stripping and underscore allowances of the
builtin are unused by this program and omitted). `none` models the
`ValueError` raised otherwise. -/
def pyIntOfString (s : String) : Option Int :=
  match s.data with
  | [] => none
  | '-' :: rest =>
    if rest.isEmpty then none else (decDigits 0 rest).map (fun n => -(n : Int))
  | '+' :: rest =>
    if rest.isEmpty then none else (decDigits 0 rest).map (fun n => (n : Int))
  | cs => (decDigits 0 cs).map (fun n => (n : Int))

/-- Python `int(value)` as used in `search_books` line 77: an int is
itself, a string is parsed, and `int()` of a list or dict raises
`TypeError` (`none`). -/
def pyInt : PyVal → Option Int
  | .int n => some n
  | .str s => pyIntOfString s
  | _ => none

/-- Python `str.lower()` for the character ranges this program handles:
ASCII `A`-`Z` and Cyrillic `А`-`Я`, `Ё` map to their lowercase forms,
every other character is unchanged. -/
def lowerChar (c : Char) : Char :=
  if 'A' ≤ c ∧ c ≤ 'Z' then Char.ofNat (c.toNat + 32)
  else if 'А' ≤ c ∧ c ≤ 'Я' then Char.ofNat (c.toNat + 32)
  else if c = 'Ё' then 'ё'
  else c

/-- `s.lower()` applied characterwise. -/
def strLower (s : String) : String :=
  ⟨s.data.map lowerChar⟩

/-- A book record (`class Book`, lines 4-30). Each attribute holds a
dynamic value: `from_dict` copies whatever the backing file held into
the attribute without any shape check, so the fields are `PyVal`, not
fixed Lean types. -/
structure Book where
  id : PyVal
  title : PyVal
  author : PyVal
  year : PyVal
  status : PyVal


/-- `Book.__init__` (lines 7-12): the caller-supplied title, author and
year, a fresh identifier `id(self)` — the object's memory address,
supplied here by the environment as `newId` — and the default status
`"в наличии"`. -/
def Book.make (newId : Int) (title author : String) (year : Int) : Book :=
  ⟨.int newId, .str title, .str author, .int year, .str "в наличии"⟩

/-- `Book.to_dict` (lines 14-22): the five attributes, verbatim, under
their fixed keys. -/
def Book.to_dict (b : Book) : PyVal :=
  .dict [("id", b.id), ("title", b.title), ("author", b.author),
         ("year", b.year), ("status", b.status)]

/-- Python `dict` lookup `d[key]` on the entry list of a decoded JSON
object (`none` models the `KeyError`). A decoded object has distinct
keys; on a list with a repeated key this returns the first binding. -/
def dictGet (entries : List (String × PyVal)) (key : String) : Option PyVal :=
  match entries with
  | [] => none
  | (k, v) :: rest => if k = key then some v else dictGet rest key

/-- `Book.from_dict` (lines 24-30): subscripts `data` with the keys
`title`, `author`, `year` (constructor call), then `id` and `status`
(overwriting the constructor's fresh id and default status), each taken
verbatim with no shape check; `KeyError` on a missing key and
`TypeError` on a non-dict argument both surface as `none`. -/
def Book.from_dict : PyVal → Option Book
  | .dict entries => do
    let title ← dictGet entries "title"
    let author ← dictGet entries "author"
    let year ← dictGet entries "year"
    let i ← dictGet entries "id"
    let status ← dictGet entries "status"
    pure ⟨i, title, author, year, status⟩
  | _ => none

/-- The backing file at `file_path`, as seen through the external JSON
collaborator: absent, present but not parseable as JSON
(`json.load` raises), or present and decoding to a JSON value. -/
inductive FileState where
  | absent
  | invalidJson
  | json (v : PyVal)


/-- Python iteration `for x in data` over a decoded JSON value: a list
yields its elements, a string its one-character strings, a dict its
keys; an integer is not iterable (`TypeError`, modelled `none`). -/
def pyIter : PyVal → Option (List PyVal)
  | .int _ => none
  | .str s => some (s.data.map (fun c => .str (String.singleton c)))
  | .list elems => some elems
  | .dict entries => some (entries.map (fun kv => .str kv.1))

/-- The list comprehension `[Book.from_dict(book) for book in data]`
(line 46): parses each iterated element in order, propagating the first
failure. -/
def parse_all : List PyVal → Option (List Book)
  | [] => some []
  | v :: vs => (Book.from_dict v).bind (fun b => (parse_all vs).map (b :: ·))

/-- `Library.load_books` (lines 41-48): a missing file gives the empty
collection (`except FileNotFoundError`); unparseable content lets the
`json.load` exception propagate; parsed content is iterated and each
element rebuilt with `Book.from_dict`, any exception propagating. -/
def load_books (file : FileState) : Option (List Book) :=
  match file with
  | .absent => some []
  | .invalidJson => none
  | .json v => (pyIter v).bind parse_all

/-- `Library.save_books` (lines 50-53): the backing file now decodes to
the JSON array of the books' dicts, in collection order, fully
replacing prior contents. -/
def save_books (books : List Book) : FileState :=
  .json (.list (books.map Book.to_dict))

/-- The store: the in-memory collection plus the backing file's
content at `file_path` (the path itself never varies and is omitted). -/
structure Library where
  books : List Book
  file : FileState


/-- `Library.__init__` (lines 36-39): construction loads the backing
file; an exception from `load_books` propagates out of the constructor
(`none`). -/
def Library.construct (file : FileState) : Option Library :=
  (load_books file).map (fun books => ⟨books, file⟩)

/-- `Library.add_book` (lines 55-60): build a fresh book (its
identifier `id(self)` supplied by the allocator as `newId`), append it,
save, and hand the created book back. -/
def add_book (lib : Library) (newId : Int) (title author : String) (year : Int) :
    Library × Book :=
  let b := Book.make newId title author year
  let newBooks := lib.books ++ [b]
  (⟨newBooks, save_books newBooks⟩, b)

inductive DeleteResult where
  | deleted
  | notFound


/-- The scan of `delete_book` (lines 64-69): remove the first book
whose `id` equals `book_id` (`none` when no book matches). -/
def delete_first (book_id : Int) : List Book → Option (List Book)
  | [] => none
  | b :: bs =>
    if pyEqInt b.id book_id then some bs
    else (delete_first book_id bs).map (b :: ·)

/-- `Library.delete_book` (lines 62-70): on a match, remove that book
and save (the `Bool` records whether `save_books` ran); otherwise
report not-found and leave everything untouched. -/
def delete_book (lib : Library) (book_id : Int) : DeleteResult × Library × Bool :=
  match delete_first book_id lib.books with
  | some newBooks => (.deleted, ⟨newBooks, save_books newBooks⟩, true)
  | none => (.notFound, lib, false)

/-- The criterion keys at which `getattr(book, key, "")` (line 79)
genuinely falls back to the default `""`. A `Book` instance carries
exactly the five data attributes set in `__init__`; every further name
`getattr` can find resolves to a class attribute — the methods
`to_dict` and `from_dict`, or a `__...__` member (`__init__`,
`__doc__`, `__class__`, ...) defined by the class statement or
inherited from `object`, all of whose names start with `__`. Any other
key names no attribute at all and yields the default. -/
def fallsToDefault (key : String) : Bool :=
  decide (key ∉ (["id", "title", "author", "year", "status",
    "to_dict", "from_dict"] : List String))
    && !(match key.data with
         | '_' :: '_' :: _ => true
         | _ => false)

/-- `getattr(book, key, "")` (line 79) on the modelled key domain: the
five data attributes by name, and the default `""` for a key naming no
attribute at all (`fallsToDefault`). For the remaining keys the real
`getattr` finds a class attribute — a method object or docstring,
outside the `PyVal` value domain — and this function returns the
placeholder `""` instead; every theorem that quantifies over criterion
keys beyond the five data fields therefore carries `fallsToDefault` as
a hypothesis, keeping those keys out of its scope. -/
def Book.getattr (b : Book) (key : String) : PyVal :=
  if key = "id" then b.id
  else if key = "title" then b.title
  else if key = "author" then b.author
  else if key = "year" then b.year
  else if key = "status" then b.status
  else .str ""

/-- The comprehension `[book for book in result if book.id == int(value)]`
(line 77): the condition is evaluated once per element, so `int(value)`
raises (`none`) only when at least one element is present. -/
def filterId (value : PyVal) : List Book → Option (List Book)
  | [] => some []
  | b :: bs =>
    (pyInt value).bind (fun n =>
      (filterId value bs).map (fun rest =>
        if pyEqInt b.id n then b :: rest else rest))

/-- One pass of the criteria loop (lines 75-79): the `id` key filters by
`book.id == int(value)`; any other key filters by
`str(getattr(book, key, "")).lower() == str(value).lower()`. -/
def applyCriterion (result : List Book) (key : String) (value : PyVal) :
    Option (List Book) :=
  if key = "id" then filterId value result
  else some (result.filter (fun b =>
    strLower (pyStr (b.getattr key)) == strLower (pyStr value)))

/-- `Library.search_books` (lines 72-80): starting from the whole
collection, apply each criterion in turn (`criteria` lists the keyword
arguments in order; keyword arguments have distinct keys). -/
def search_books (books : List Book) (criteria : List (String × PyVal)) :
    Option (List Book) :=
  match criteria with
  | [] => some books
  | (key, value) :: rest =>
    (applyCriterion books key value).bind (fun result => search_books result rest)

inductive UpdateResult where
  | invalidStatus
  | updated
  | notFound

/-- The per-criterion test that one pass of lines 75-79 applies to one
book: the `id` key compares `book.id == int(value)` (false in the
unreachable case of an inconvertible value), any other key compares
`str(getattr(book, key, "")).lower() == str(value).lower()`. -/
def matchesCrit (b : Book) (c : String × PyVal) : Bool :=
  if c.1 = "id" then
    match pyInt c.2 with
    | some n => pyEqInt b.id n
    | none => false
  else strLower (pyStr (b.getattr c.1)) == strLower (pyStr c.2)


/-- The scan of `update_status` (lines 96-101): overwrite the status of
the first book whose `id` equals `book_id` (`none` when none matches). -/
def set_status_first (book_id : Int) (status : String) : List Book → Option (List Book)
  | [] => none
  | b :: bs =>
    if pyEqInt b.id book_id then some ({ b with status := .str status } :: bs)
    else (set_status_first book_id status bs).map (b :: ·)

/-- `Library.update_status` (lines 91-102): reject a status outside the
two-element enumeration before any scan; otherwise overwrite the first
matching book's status and save (the `Bool` records whether
`save_books` ran), or report not-found leaving everything untouched. -/
def update_status (lib : Library) (book_id : Int) (status : String) :
    UpdateResult × Library × Bool :=
  if status ∉ ["в наличии", "выдана"] then (.invalidStatus, lib, false)
  else
    match set_status_first book_id status lib.books with
    | some newBooks => (.updated, ⟨newBooks, save_books newBooks⟩, true)
    | none => (.notFound, lib, false)

/-! ### Helper lemmas -/

theorem filterId_eq_filter {value : PyVal} {n : Int} (h : pyInt value = some n) :
    ∀ bs : List Book, filterId value bs = some (bs.filter (fun b => pyEqInt b.id n))
  | [] => by simp [filterId]
  | b :: bs => by
    rw [filterId, h, Option.some_bind, filterId_eq_filter h bs]
    simp only [Option.map_some', List.filter_cons]

theorem search_books_eq_filter (books : List Book) (criteria : List (String × PyVal))
    (hid : ∀ c ∈ criteria, c.1 = "id" → (pyInt c.2).isSome) :
    search_books books criteria
      = some (books.filter (fun b => criteria.all (fun c => matchesCrit b c))) := by
  induction criteria generalizing books with
  | nil => simp [search_books]
  | cons c rest ih =>
    obtain ⟨k, v⟩ := c
    have hrest : ∀ c ∈ rest, c.1 = "id" → (pyInt c.2).isSome :=
      fun c hc => hid c (List.mem_cons_of_mem _ hc)
    by_cases hk : k = "id"
    · subst hk
      obtain ⟨n, hn⟩ := Option.isSome_iff_exists.mp (hid ("id", v) (List.mem_cons_self _ _) rfl)
      rw [search_books, applyCriterion, if_pos rfl, filterId_eq_filter hn, Option.some_bind,
        ih _ hrest]
      rw [List.filter_filter]
      congr 1
      apply List.filter_congr
      intro b _
      simp [matchesCrit, hn, Bool.and_comm]
    · rw [search_books, applyCriterion, if_neg hk, Option.some_bind, ih _ hrest]
      rw [List.filter_filter]
      congr 1
      apply List.filter_congr
      intro b _
      simp [matchesCrit, hk, Bool.and_comm]

theorem all_of_perm {α : Type} {l₁ l₂ : List α} (h : l₁.Perm l₂) (f : α → Bool) :
    l₁.all f = l₂.all f := by
  rw [Bool.eq_iff_iff, List.all_eq_true, List.all_eq_true]
  constructor <;> intro hall x hx
  · exact hall x (h.mem_iff.mpr hx)
  · exact hall x (h.mem_iff.mp hx)

theorem from_dict_to_dict (b : Book) : Book.from_dict (Book.to_dict b) = some b := by
  cases b
  rfl

theorem parse_all_map_to_dict (books : List Book) :
    parse_all (books.map Book.to_dict) = some books := by
  induction books with
  | nil => rfl
  | cons b bs ih => rw [List.map_cons, parse_all, from_dict_to_dict, Option.some_bind, ih]; rfl

theorem set_status_first_of_no_match {book_id : Int} {status : String} :
    ∀ {bs : List Book}, (∀ x ∈ bs, pyEqInt x.id book_id = false) →
      set_status_first book_id status bs = none
  | [], _ => rfl
  | b :: bs, h => by
    rw [set_status_first, if_neg (by simp [h b (List.mem_cons_self _ _)]),
      set_status_first_of_no_match (fun x hx => h x (List.mem_cons_of_mem _ hx))]
    rfl

theorem set_status_first_found {book_id : Int} {status : String} (b : Book) (post : List Book)
    (hb : pyEqInt b.id book_id = true) :
    ∀ pre : List Book, (∀ x ∈ pre, pyEqInt x.id book_id = false) →
      set_status_first book_id status (pre ++ b :: post)
        = some (pre ++ { b with status := .str status } :: post)
  | [], _ => by rw [List.nil_append, set_status_first, if_pos hb]; rfl
  | p :: pre, h => by
    rw [List.cons_append, set_status_first, if_neg (by simp [h p (List.mem_cons_self _ _)]),
      set_status_first_found b post hb pre (fun x hx => h x (List.mem_cons_of_mem _ hx))]
    rfl

theorem delete_first_of_no_match {book_id : Int} :
    ∀ {bs : List Book}, (∀ x ∈ bs, pyEqInt x.id book_id = false) →
      delete_first book_id bs = none
  | [], _ => rfl
  | b :: bs, h => by
    rw [delete_first, if_neg (by simp [h b (List.mem_cons_self _ _)]),
      delete_first_of_no_match (fun x hx => h x (List.mem_cons_of_mem _ hx))]
    rfl

theorem delete_first_found {book_id : Int} (b : Book) (post : List Book)
    (hb : pyEqInt b.id book_id = true) :
    ∀ pre : List Book, (∀ x ∈ pre, pyEqInt x.id book_id = false) →
      delete_first book_id (pre ++ b :: post) = some (pre ++ post)
  | [], _ => by rw [List.nil_append, delete_first, if_pos hb]; rfl
  | p :: pre, h => by
    rw [List.cons_append, delete_first, if_neg (by simp [h p (List.mem_cons_self _ _)]),
      delete_first_found b post hb pre (fun x hx => h x (List.mem_cons_of_mem _ hx))]
    rfl

theorem search_books_id_int (books : List Book) (book_id : Int) :
    search_books books [("id", PyVal.int book_id)]
      = some (books.filter (fun b => pyEqInt b.id book_id)) := by
  rw [search_books, applyCriterion, if_pos rfl,
    filterId_eq_filter (show pyInt (PyVal.int book_id) = some book_id from rfl),
    Option.some_bind]
  rfl

/-! ### The claims -/

/-- C1: over the fields id/title/author/year/status (with convertible
`id` values), `search_books` returns exactly the books, in original
collection order, that satisfy every criterion — the `id` criterion by
integer equality, every other criterion by case-insensitive text
equality of the record's field value and the criterion value
(`matchesCrit`); the result is invariant under reordering of the
criteria; it is the empty list, not an error, when nothing matches; and
`search(author="HERBERT")` matches a record whose author is
`"Herbert"`. -/
theorem claim1_search_semantics (books : List Book) (criteria : List (String × PyVal))
    (hkeys : ∀ c ∈ criteria, c.1 ∈ (["id", "title", "author", "year", "status"] : List String))
    (hid : ∀ c ∈ criteria, c.1 = "id" → (pyInt c.2).isSome) :
    search_books books criteria
        = some (books.filter (fun b => criteria.all (fun c => matchesCrit b c)))
      ∧ (∀ criteria₂, criteria.Perm criteria₂ →
          search_books books criteria = search_books books criteria₂)
      ∧ ((∀ b ∈ books, criteria.all (fun c => matchesCrit b c) = false) →
          search_books books criteria = some [])
      ∧ search_books [⟨.int 1, .str "Dune", .str "Herbert", .int 1965, .str "в наличии"⟩]
            [("author", .str "HERBERT")]
          = some [⟨.int 1, .str "Dune", .str "Herbert", .int 1965, .str "в наличии"⟩] := by
  refine ⟨search_books_eq_filter books criteria hid, fun criteria₂ hperm => ?_, fun hnone => ?_, ?_⟩
  · rw [search_books_eq_filter books criteria hid,
      search_books_eq_filter books criteria₂
        (fun c hc => hid c (hperm.mem_iff.mpr hc))]
    congr 1
    apply List.filter_congr
    intro b _
    exact all_of_perm hperm _
  · rw [search_books_eq_filter books criteria hid]
    congr 1
    rw [List.filter_eq_nil_iff]
    intro b hb
    simp [hnone b hb]
  · rfl

/-- C1 witness: the case-insensitive author search at a concrete store. -/
theorem claim1_search_semantics_witness :
    search_books [⟨.int 1, .str "Dune", .str "Herbert", .int 1965, .str "в наличии"⟩]
        [("author", .str "HERBERT")]
      = some [⟨.int 1, .str "Dune", .str "Herbert", .int 1965, .str "в наличии"⟩] :=
  (claim1_search_semantics
    [⟨.int 1, .str "Dune", .str "Herbert", .int 1965, .str "в наличии"⟩]
    [("author", .str "HERBERT")] (by simp) (by simp)).2.2.2

/-- C2: saving a collection and loading it back from the same path (a
fresh store construction included) reproduces the identical collection:
same identifiers, same field values, same order. -/
theorem claim2_save_load_roundtrip (books : List Book) :
    load_books (save_books books) = some books
      ∧ Library.construct (save_books books) = some ⟨books, save_books books⟩ := by
  have h : load_books (save_books books) = some books := by
    rw [save_books, load_books, pyIter, Option.some_bind, parse_all_map_to_dict]
  exact ⟨h, by rw [Library.construct, h]; rfl⟩

theorem getattr_default (key : String) (hkey : fallsToDefault key = true) (b : Book) :
    b.getattr key = .str "" := by
  simp only [fallsToDefault, Bool.and_eq_true, decide_eq_true_eq, List.mem_cons,
    List.not_mem_nil, or_false, not_or] at hkey
  obtain ⟨⟨h1, h2, h3, h4, h5, -, -⟩, -⟩ := hkey
  rw [Book.getattr, if_neg h1, if_neg h2, if_neg h3, if_neg h4, if_neg h5]

/-- C3 counterexample: a criterion key naming a field the record does
not have (`publisher`) does not fail; the absent field is compared as
the empty string, so the empty criterion value makes the search match
the whole store. -/
theorem claim3_counterexample :
    search_books [⟨.int 1, .str "Dune", .str "Herbert", .int 1965, .str "в наличии"⟩]
        [("publisher", .str "")]
      = some [⟨.int 1, .str "Dune", .str "Herbert", .int 1965, .str "в наличии"⟩] := rfl

/-- C3 amended: `search_books` given a criterion key that names no
attribute of the record at all — outside the five data fields, the two
methods and the `__...__` members (`fallsToDefault`) — does not fail:
the absent attribute is treated as the empty string, so the criterion
matches every record when the criterion value `str()`s and lowercases
to the empty string, and no record otherwise. -/
theorem claim3_unknown_criterion (books : List Book) (key : String) (value : PyVal)
    (hkey : fallsToDefault key = true) :
    search_books books [(key, value)]
      = some (if strLower (pyStr value) = "" then books else []) := by
  have hne : key ≠ "id" := by
    intro h
    rw [h] at hkey
    exact absurd hkey (by decide)
  rw [search_books, applyCriterion, if_neg hne, Option.some_bind, search_books]
  congr 1
  simp only [getattr_default key hkey]
  by_cases h : strLower (pyStr value) = ""
  · rw [if_pos h, h]
    simp [show strLower (pyStr (PyVal.str "")) = "" from rfl]
  · rw [if_neg h]
    rw [List.filter_eq_nil_iff]
    intro b _
    simp only [show strLower (pyStr (PyVal.str "")) = "" from rfl]
    simp [Ne.symm h]

/-- C3 witness: a criterion key naming no attribute, with a non-empty
value, matches no record but raises no error. -/
theorem claim3_unknown_criterion_witness :
    search_books [⟨.int 1, .str "Dune", .str "Herbert", .int 1965, .str "в наличии"⟩]
        [("publisher", .str "Ace")]
      = some (if strLower (pyStr (PyVal.str "Ace")) = ""
          then [⟨.int 1, .str "Dune", .str "Herbert", .int 1965, .str "в наличии"⟩] else []) :=
  claim3_unknown_criterion
    [⟨.int 1, .str "Dune", .str "Herbert", .int 1965, .str "в наличии"⟩]
    "publisher" (.str "Ace") (by decide)

/-- C4: `update_status` with a status outside the two-value enumeration
reports `invalidStatus` and leaves the store (collection and backing
file) untouched with no save, whatever the collection holds — the check
precedes the scan; with a valid status and a matching record, exactly
the first matching record's status is overwritten, every other field
and record is unchanged, the new collection is saved, and the outcome
is success; with a valid status and no match, the outcome is
`notFound` with no change and no save. -/
theorem claim4_update_status (lib : Library) (book_id : Int) (status : String) :
    (status ∉ (["в наличии", "выдана"] : List String) →
        update_status lib book_id status = (.invalidStatus, lib, false))
      ∧ (∀ pre b post, status ∈ (["в наличии", "выдана"] : List String) →
          lib.books = pre ++ b :: post →
          (∀ x ∈ pre, pyEqInt x.id book_id = false) →
          pyEqInt b.id book_id = true →
          update_status lib book_id status
            = (.updated,
               ⟨pre ++ { b with status := .str status } :: post,
                save_books (pre ++ { b with status := .str status } :: post)⟩, true))
      ∧ (status ∈ (["в наличии", "выдана"] : List String) →
          (∀ x ∈ lib.books, pyEqInt x.id book_id = false) →
          update_status lib book_id status = (.notFound, lib, false)) := by
  refine ⟨fun hbad => ?_, fun pre b post hok hsplit hpre hb => ?_, fun hok hnone => ?_⟩
  · rw [update_status, if_pos hbad]
  · rw [update_status, if_neg (by simp [hok]), hsplit,
      set_status_first_found b post hb pre hpre]
  · rw [update_status, if_neg (by simp [hok]), set_status_first_of_no_match hnone]

/-- C4 witness: updating the status of the one stored record. -/
theorem claim4_update_status_witness :
    update_status
        ⟨[⟨.int 7, .str "Dune", .str "Herbert", .int 1965, .str "в наличии"⟩],
         save_books [⟨.int 7, .str "Dune", .str "Herbert", .int 1965, .str "в наличии"⟩]⟩
        7 "выдана"
      = (.updated,
         ⟨[⟨.int 7, .str "Dune", .str "Herbert", .int 1965, .str "выдана"⟩],
          save_books [⟨.int 7, .str "Dune", .str "Herbert", .int 1965, .str "выдана"⟩]⟩, true) :=
  (claim4_update_status
      ⟨[⟨.int 7, .str "Dune", .str "Herbert", .int 1965, .str "в наличии"⟩],
       save_books [⟨.int 7, .str "Dune", .str "Herbert", .int 1965, .str "в наличии"⟩]⟩
      7 "выдана").2.1
    [] ⟨.int 7, .str "Dune", .str "Herbert", .int 1965, .str "в наличии"⟩ []
    (by simp) rfl (by simp) (by decide)

/-- C5: `delete_book` on an identifier matched by exactly one record
removes that record, keeps every other record in its original order,
saves, and reports success, after which a search on that identifier
returns the empty sequence; on an identifier matching no record it
reports `notFound` with no error, no save and no change, and a search
on that identifier likewise returns the empty sequence. -/
theorem claim5_delete_book (lib : Library) (book_id : Int) :
    (∀ pre b post, lib.books = pre ++ b :: post →
        (∀ x ∈ pre, pyEqInt x.id book_id = false) →
        pyEqInt b.id book_id = true →
        (∀ x ∈ post, pyEqInt x.id book_id = false) →
        delete_book lib book_id = (.deleted, ⟨pre ++ post, save_books (pre ++ post)⟩, true)
          ∧ search_books (pre ++ post) [("id", PyVal.int book_id)] = some [])
      ∧ ((∀ x ∈ lib.books, pyEqInt x.id book_id = false) →
          delete_book lib book_id = (.notFound, lib, false)
            ∧ search_books lib.books [("id", PyVal.int book_id)] = some []) := by
  constructor
  · intro pre b post hsplit hpre hb hpost
    constructor
    · rw [delete_book, hsplit, delete_first_found b post hb pre hpre]
    · rw [search_books_id_int]
      congr 1
      rw [List.filter_eq_nil_iff]
      intro x hx
      rcases List.mem_append.mp hx with h | h
      · simp [hpre x h]
      · simp [hpost x h]
  · intro hnone
    constructor
    · rw [delete_book, delete_first_of_no_match hnone]
    · rw [search_books_id_int]
      congr 1
      rw [List.filter_eq_nil_iff]
      intro x hx
      simp [hnone x hx]

/-- C5 witness: deleting the one stored record with id 7, then
searching for id 7. -/
theorem claim5_delete_book_witness :
    delete_book
        ⟨[⟨.int 7, .str "Dune", .str "Herbert", .int 1965, .str "в наличии"⟩],
         save_books [⟨.int 7, .str "Dune", .str "Herbert", .int 1965, .str "в наличии"⟩]⟩ 7
      = (.deleted, ⟨[], save_books []⟩, true)
      ∧ search_books [] [("id", PyVal.int 7)] = some [] :=
  (claim5_delete_book
      ⟨[⟨.int 7, .str "Dune", .str "Herbert", .int 1965, .str "в наличии"⟩],
       save_books [⟨.int 7, .str "Dune", .str "Herbert", .int 1965, .str "в наличии"⟩]⟩ 7).1
    [] ⟨.int 7, .str "Dune", .str "Herbert", .int 1965, .str "в наличии"⟩ []
    rfl (by simp) (by decide) (by simp)

/-- C6 counterexample: a backing file that is present but malformed for
this format — it holds the JSON object `\x7b\x7d` instead of an array —
does not fail construction: the dict iterates to no keys and the store
silently starts with an empty collection. -/
theorem claim6_counterexample :
    Library.construct (FileState.json (PyVal.dict []))
      = some ⟨[], FileState.json (PyVal.dict [])⟩ := rfl

/-- C6 amended: construction with an absent backing file yields an
empty collection without error, and with an unparseable or malformed
present file it generally fails — except that content iterating to no
elements (such as the empty JSON object) is silently loaded as an empty
collection; array content is parsed record by record. -/
theorem claim6_construct :
    Library.construct FileState.absent = some ⟨[], FileState.absent⟩
      ∧ Library.construct FileState.invalidJson = none
      ∧ (∀ n : Int, Library.construct (FileState.json (.int n)) = none)
      ∧ (∀ k v kvs, Library.construct (FileState.json (.dict ((k, v) :: kvs))) = none)
      ∧ Library.construct (FileState.json (.dict [])) = some ⟨[], FileState.json (.dict [])⟩
      ∧ (∀ elems, load_books (FileState.json (.list elems)) = parse_all elems) :=
  ⟨rfl, rfl, fun _ => rfl, fun _ _ _ => rfl, rfl, fun _ => rfl⟩

/-- C7 counterexample: `from_dict` does not fail on a field of the
wrong shape — a non-integer `year` is accepted and stored verbatim. -/
theorem claim7_counterexample :
    Book.from_dict (.dict [("id", .int 1), ("title", .str "Dune"), ("author", .str "Herbert"),
        ("year", .str "not a number"), ("status", .str "в наличии")])
      = some ⟨.int 1, .str "Dune", .str "Herbert", .str "not a number", .str "в наличии"⟩ := rfl

/-- C7 amended: `from_dict` fails exactly when the input is not a
mapping or one of the five required keys is missing; it performs no
shape validation, and every field — the identifier and status included
— is taken verbatim from the input, not re-derived. -/
theorem claim7_from_dict :
    (∀ entries, (Book.from_dict (.dict entries)).isSome
        ↔ ((dictGet entries "title").isSome ∧ (dictGet entries "author").isSome
            ∧ (dictGet entries "year").isSome ∧ (dictGet entries "id").isSome
            ∧ (dictGet entries "status").isSome))
      ∧ (∀ entries b, Book.from_dict (.dict entries) = some b →
          dictGet entries "id" = some b.id ∧ dictGet entries "title" = some b.title
            ∧ dictGet entries "author" = some b.author ∧ dictGet entries "year" = some b.year
            ∧ dictGet entries "status" = some b.status)
      ∧ (∀ n : Int, Book.from_dict (.int n) = none)
      ∧ (∀ s : String, Book.from_dict (.str s) = none)
      ∧ (∀ elems, Book.from_dict (.list elems) = none) := by
  refine ⟨fun entries => ?_, fun entries b h => ?_, fun _ => rfl, fun _ => rfl, fun _ => rfl⟩
  · cases h1 : dictGet entries "title" <;>
      cases h2 : dictGet entries "author" <;>
      cases h3 : dictGet entries "year" <;>
      cases h4 : dictGet entries "id" <;>
      cases h5 : dictGet entries "status" <;>
      simp [Book.from_dict, h1, h2, h3, h4, h5]
  · cases h1 : dictGet entries "title" <;>
      cases h2 : dictGet entries "author" <;>
      cases h3 : dictGet entries "year" <;>
      cases h4 : dictGet entries "id" <;>
      cases h5 : dictGet entries "status" <;>
      simp_all [Book.from_dict]
    obtain rfl := h
    exact ⟨rfl, rfl, rfl, rfl, rfl⟩

/-- C7 witness: a complete input mapping is reconstructed with the
identifier and status taken verbatim. -/
theorem claim7_from_dict_witness :
    dictGet [("id", PyVal.int 9), ("title", PyVal.str "Dune"), ("author", PyVal.str "Herbert"),
        ("year", PyVal.int 1965), ("status", PyVal.str "выдана")] "id" = some (PyVal.int 9)
      ∧ dictGet [("id", PyVal.int 9), ("title", PyVal.str "Dune"),
          ("author", PyVal.str "Herbert"), ("year", PyVal.int 1965),
          ("status", PyVal.str "выдана")] "title" = some (PyVal.str "Dune")
      ∧ dictGet [("id", PyVal.int 9), ("title", PyVal.str "Dune"),
          ("author", PyVal.str "Herbert"), ("year", PyVal.int 1965),
          ("status", PyVal.str "выдана")] "author" = some (PyVal.str "Herbert")
      ∧ dictGet [("id", PyVal.int 9), ("title", PyVal.str "Dune"),
          ("author", PyVal.str "Herbert"), ("year", PyVal.int 1965),
          ("status", PyVal.str "выдана")] "year" = some (PyVal.int 1965)
      ∧ dictGet [("id", PyVal.int 9), ("title", PyVal.str "Dune"),
          ("author", PyVal.str "Herbert"), ("year", PyVal.int 1965),
          ("status", PyVal.str "выдана")] "status" = some (PyVal.str "выдана") :=
  claim7_from_dict.2.1
    [("id", PyVal.int 9), ("title", PyVal.str "Dune"), ("author", PyVal.str "Herbert"),
     ("year", PyVal.int 1965), ("status", PyVal.str "выдана")]
    ⟨PyVal.int 9, PyVal.str "Dune", PyVal.str "Herbert", PyVal.int 1965, PyVal.str "выдана"⟩
    rfl

/-- C8: the identifier of a new book is `id(self)`, the object's
transient memory address, whose only guarantee is distinctness among
simultaneously live objects. This run stays within that guarantee —
each add uses an address foreign to every book then in the collection —
yet after a delete frees the first book's address, the next add can be
handed the same address, and the two records ever created share one
identifier (each was nevertheless appended with the default status). -/
theorem claim8_address_reuse :
    (PyVal.int 5 ∉ (Library.mk [] FileState.absent).books.map Book.id)
      ∧ (add_book (Library.mk [] FileState.absent) 5 "Dune" "Herbert" 1965).2.status
          = PyVal.str "в наличии"
      ∧ (PyVal.int 5 ∉
          ((delete_book (add_book (Library.mk [] FileState.absent) 5 "Dune" "Herbert" 1965).1
            5).2.1).books.map Book.id)
      ∧ (add_book
            ((delete_book (add_book (Library.mk [] FileState.absent) 5 "Dune" "Herbert" 1965).1
              5).2.1) 5 "Solaris" "Lem" 1961).2.id
          = (add_book (Library.mk [] FileState.absent) 5 "Dune" "Herbert" 1965).2.id := by
  refine ⟨by simp, rfl, ?_, rfl⟩
  show PyVal.int 5 ∉ ([] : List Book).map Book.id
  simp

/-- C9 counterexample: a freshly created record's status is the string
`"в наличии"`, which is not the spelling `available` the claim
requires. -/
theorem claim9_counterexample :
    (Book.make 1 "Dune" "Herbert" 1965).status = PyVal.str "в наличии"
      ∧ PyVal.str "в наличии" ≠ PyVal.str "available" := by
  refine ⟨rfl, fun h => ?_⟩
  injection h with h
  exact absurd h (by decide)

/-- C9 amended: the status field takes exactly two values, spelled
`в наличии` and `выдана`, consistently wherever persisted or compared:
a record's status defaults to `в наличии` at creation,
`update_status` rejects exactly the strings outside the two-value
enumeration, and the status is persisted and restored verbatim by the
dict round trip. -/
theorem claim9_status_enumeration :
    (∀ (newId : Int) (title author : String) (year : Int),
        (Book.make newId title author year).status = PyVal.str "в наличии")
      ∧ (∀ (lib : Library) (book_id : Int) (status : String),
          (update_status lib book_id status).1 = .invalidStatus
            ↔ ¬(status = "в наличии" ∨ status = "выдана"))
      ∧ (∀ b : Book, Book.from_dict (Book.to_dict b) = some b) := by
  refine ⟨fun _ _ _ _ => rfl, fun lib book_id status => ?_, from_dict_to_dict⟩
  rw [update_status]
  by_cases h : status ∈ (["в наличии", "выдана"] : List String)
  · rw [if_neg (by simp [h])]
    constructor
    · intro hbad
      exfalso
      cases hstep : set_status_first book_id status lib.books <;> simp [hstep] at hbad
    · intro hbad
      exact absurd (by simpa using h) hbad
  · rw [if_pos h]
    simp only [List.mem_cons, List.not_mem_nil, or_false] at h
    simpa using h

/-- C10 counterexample: on an empty store a non-convertible `id`
criterion value raises nothing — the conversion is never evaluated —
and the search returns the empty sequence. -/
theorem claim10_counterexample :
    search_books [] [("id", PyVal.str "abc")] = some []
      ∧ pyInt (PyVal.str "abc") = none := ⟨rfl, rfl⟩

/-- C10 amended: `int(value)` is evaluated once per surviving record,
so a non-convertible `id` criterion value fails whenever at least one
record reaches the `id` pass, while on an empty collection the search
returns the empty sequence without error; and a convertible value is
coerced to an integer before comparison, so the numeric string "7"
matches the record whose integer identifier is 7. -/
theorem claim10_id_coercion :
    (∀ value : PyVal, search_books [] [("id", value)] = some [])
      ∧ (∀ (b : Book) (bs : List Book) (value : PyVal), pyInt value = none →
          search_books (b :: bs) [("id", value)] = none)
      ∧ (∀ books : List Book,
          search_books books [("id", PyVal.str "7")]
            = some (books.filter (fun b => pyEqInt b.id 7)))
      ∧ search_books [⟨.int 7, .str "Dune", .str "Herbert", .int 1965, .str "в наличии"⟩]
            [("id", PyVal.str "7")]
          = some [⟨.int 7, .str "Dune", .str "Herbert", .int 1965, .str "в наличии"⟩] := by
  refine ⟨fun value => rfl, fun b bs value h => ?_, fun books => ?_, rfl⟩
  · rw [search_books, applyCriterion, if_pos rfl, filterId, h]
    rfl
  · rw [search_books, applyCriterion, if_pos rfl,
      filterId_eq_filter (show pyInt (PyVal.str "7") = some 7 from rfl), Option.some_bind]
    rfl

/-- C10 witness: a store with one record and a non-convertible `id`
value fails with a conversion error. -/
theorem claim10_id_coercion_witness :
    search_books [⟨.int 7, .str "Dune", .str "Herbert", .int 1965, .str "в наличии"⟩]
        [("id", PyVal.str "abc")] = none :=
  claim10_id_coercion.2.1
    ⟨.int 7, .str "Dune", .str "Herbert", .int 1965, .str "в наличии"⟩ [] (.str "abc") rfl

end BookStore
